import Mathlib

/-!
Shallow embedding of the motor-control core of `src/Controller/main.py`
(class `MotorController` plus the pieces of `RobotControlApp.update` the
claims refer to).  Python floats are modelled as exact rationals, the
per-joint arrays as functions `Fin 7 → _` (the controller has a fixed
table of 7 motors), and the serial link as a log of the command strings
handed to `SerialCommunicator.send`.  The global `Config.PASSIVITY_MODE`
flag is carried inside the state record.  Logging, timestamps and the
pygame clock are not modelled; no claim mentions them.
-/

namespace Manipulator

/-- Enum `MotorState` from the source (idle / moving / error / at_limit). -/
inductive MotorState where
  | IDLE
  | MOVING
  | ERROR
  | AT_LIMIT
deriving DecidableEq, Repr

/-- Dataclass `MotorConfig`: per-motor static configuration. -/
structure MotorConfig where
  index : ℕ
  name : String
  min_val : ℤ
  max_val : ℤ
  default_pos : ℤ
deriving DecidableEq, Repr

/-- The fixed motor table built in `MotorController.__init__`. -/
def motors (i : Fin 7) : MotorConfig :=
  match i with
  | ⟨0, _⟩ => ⟨0, "Base", 0, 1023, 512⟩
  | ⟨1, _⟩ => ⟨1, "Shoulder", 180, 845, 512⟩
  | ⟨2, _⟩ => ⟨2, "Upper_Arm", 165, 1023, 380⟩
  | ⟨3, _⟩ => ⟨3, "Elbow", 512, 1023, 800⟩
  | ⟨4, _⟩ => ⟨4, "forearm", 512, 1023, 700⟩
  | ⟨5, _⟩ => ⟨5, "Wrist", 0, 1023, 512⟩
  | ⟨6, _⟩ => ⟨6, "Hand", 370, 695, 512⟩
  | ⟨n + 7, h⟩ => absurd h (by omega)

/-- One comma-separated field of an inbound serial line, abstracted to the
two parses the source attempts on it: `int(p)` and `float(p)`.  A numeric
token has both, a token such as `"7*"` has neither, a decimal such as
`"3.5"` has only the float parse. -/
structure Field where
  asInt : Option ℤ
  asFloat : Option ℚ
deriving DecidableEq, Repr

/-- An inbound line after the literal-prefix dispatch of
`process_feedback`: `"Positions:..."`, `"Feedback:..."` or anything else,
with its comma-split field list. -/
inductive InMsg where
  | positionsLine (fields : List Field)
  | feedbackLine (fields : List Field)
  | rawLine
deriving DecidableEq, Repr

/-- The mutable state of `MotorController` (7-motor table), together with
the `Config.PASSIVITY_MODE` global and the log of serial sends.  The
logging throttle fields (`last_feedback_log_time`, interval) and the
unused `velocities` list are omitted: nothing in the modelled methods
reads them back into control decisions. -/
structure ControllerState where
  current_positions : Fin 7 → ℚ
  target_positions : Fin 7 → ℚ
  display_positions : Fin 7 → ℚ
  motor_states : Fin 7 → MotorState
  all_torque_enabled : Bool
  torque_enabled : Fin 7 → Bool
  is_passivity_first : Bool
  passivity_initialized_motors : Fin 7 → Bool
  passivity_mode : Bool
  custom_presets : List (String × List ℤ)
  waiting_for_positions : Bool
  passivity_presets : List ℤ
  sent : List String

/-- `serial.send(command)`: the command string is appended to the log. -/
def sendCmd (s : ControllerState) (c : String) : ControllerState :=
  { s with sent := s.sent ++ [c] }

/-- Python `int(x)` on a float: truncation toward zero. -/
def pyint (q : ℚ) : ℤ := if 0 ≤ q then ⌊q⌋ else -⌊-q⌋

/-- Python `abs(x)`, kept as an explicit branch so that concrete states
evaluate by kernel reduction. -/
def pyabs (q : ℚ) : ℚ := if q < 0 then -q else q

/-- `",".join(...)` over an already-stringified field list. -/
def joinComma (l : List String) : String := String.intercalate "," l

/-- Assignment `d[k] = v` on a Python dict modelled as an
insertion-ordered association list: replace in place if the key exists,
append otherwise. -/
def dict_insert (m : List (String × List ℤ)) (k : String) (v : List ℤ) :
    List (String × List ℤ) :=
  if m.any (fun kv => kv.1 == k) then
    m.map (fun kv => if kv.1 == k then (k, v) else kv)
  else m ++ [(k, v)]

/-- Dict lookup `d[k]` / `k in d`. -/
def dict_get (m : List (String × List ℤ)) (k : String) : Option (List ℤ) :=
  (m.find? (fun kv => kv.1 == k)).map (fun kv => kv.2)

/-- The slot name `f"Custom {slot_index + 1}"`. -/
def preset_name (slot_index : ℕ) : String := "Custom " ++ toString (slot_index + 1)

/-- `self.ui_smoothness = 0.15` from `__init__`. -/
def ui_smoothness : ℚ := 0.15

/-- The fallback dict returned by `_load_custom_presets` on
`FileNotFoundError`. -/
def default_custom_presets : List (String × List ℤ) :=
  [("Custom 1", [512, 512, 380, 800, 700, 512, 512]),
   ("Custom 2", [512, 512, 380, 800, 700, 512, 512]),
   ("Custom 3", [512, 512, 380, 800, 700, 512, 512]),
   ("Custom 4", [512, 512, 380, 800, 700, 512, 512])]

/-- Outcome of trying to open and parse `custom_presets.json`: the file is
missing (`FileNotFoundError`), present but not valid JSON, or present
with a parsed name-to-vector mapping. -/
inductive FileReadResult where
  | missing
  | malformed
  | contents (m : List (String × List ℤ))
deriving DecidableEq, Repr

/-- `MotorController._load_custom_presets`, as a function of the file-read
outcome.  The source wraps the body in `try ... except FileNotFoundError`
only, so a malformed file raises (`Except.error`); a present file longer
than 4 entries is truncated with `dict(list(presets.items())[:4])`. -/
def load_custom_presets : FileReadResult → Except Unit (List (String × List ℤ))
  | .missing => .ok default_custom_presets
  | .malformed => .error ()
  | .contents m => .ok (if 4 < m.length then m.take 4 else m)

/-- The state built by `MotorController.__init__` (with
`Config.PASSIVITY_MODE = False`, its initial value), parametrized by the
preset mapping the constructor loaded.  The constructor's final step
sends the feedback-stop command `"2,0,0,0,0,0,0,0*"`. -/
def init_state (presets : List (String × List ℤ)) : ControllerState :=
  sendCmd
    { current_positions := fun i => ((motors i).default_pos : ℚ)
      target_positions := fun i => ((motors i).default_pos : ℚ)
      display_positions := fun i => ((motors i).default_pos : ℚ)
      motor_states := fun _ => MotorState.IDLE
      all_torque_enabled := true
      torque_enabled := fun _ => true
      is_passivity_first := false
      passivity_initialized_motors := fun _ => false
      passivity_mode := false
      custom_presets := presets
      waiting_for_positions := false
      passivity_presets := []
      sent := [] }
    "2,0,0,0,0,0,0,0*"

/-- `send_torque_command`: `"1,<t0>,...,<t6>*"` with 1/0 per motor. -/
def send_torque_command (s : ControllerState) : ControllerState :=
  sendCmd s
    ("1," ++ joinComma ((List.finRange 7).map
        (fun i => if s.torque_enabled i then "1" else "0")) ++ "*")

/-- `send_control_command`: no-op in passivity mode, otherwise sends
`"0,<p0>,...,<p6>*"` with the integer-truncated targets. -/
def send_control_command (s : ControllerState) : ControllerState :=
  if s.passivity_mode then s
  else
    sendCmd s
      ("0," ++ joinComma ((List.finRange 7).map
          (fun i => toString (pyint (s.target_positions i)))) ++ "*")

/-- `toggle_all_torque`: flips the global torque flag, overwrites every
per-motor flag, sends the torque command, flips `Config.PASSIVITY_MODE`,
resets the synchronization flags and switches the feedback subscription;
returns the new global torque flag. -/
def toggle_all_torque (s : ControllerState) : ControllerState × Bool :=
  let new_state := !s.all_torque_enabled
  let s1 := { s with all_torque_enabled := new_state,
                     torque_enabled := fun _ => new_state }
  let s2 := send_torque_command s1
  let s3 := { s2 with passivity_mode := !new_state }
  if s3.passivity_mode then
    (sendCmd { s3 with is_passivity_first := true,
                       passivity_initialized_motors := fun _ => false }
      "2,1,0,0,0,0,0,0*", new_state)
  else
    (sendCmd { s3 with is_passivity_first := false,
                       passivity_initialized_motors := fun _ => false }
      "2,0,0,0,0,0,0,0*", new_state)

/-- `load_default_preset`: rejected in passivity mode; otherwise copies the
default positions into the targets and sends the control command. -/
def load_default_preset (s : ControllerState) : ControllerState × Bool :=
  if s.passivity_mode then (s, false)
  else
    (send_control_command
      { s with target_positions := fun i => ((motors i).default_pos : ℚ) }, true)

/-- `load_custom_preset(slot_index)`: rejected in passivity mode; otherwise
looks the slot up in the preset dict and, when present, copies its vector
into the targets and sends the control command. -/
def load_custom_preset (s : ControllerState) (slot_index : ℕ) :
    ControllerState × Bool :=
  if s.passivity_mode then (s, false)
  else if slot_index < 4 then
    match dict_get s.custom_presets (preset_name slot_index) with
    | some v =>
        (send_control_command
          { s with target_positions := fun i => ((v.getD i.val 0 : ℤ) : ℚ) }, true)
    | none => (s, false)
  else (s, false)

/-- `update_target(motor_index, direction, step_size)`: clamped move of one
target; rejected in passivity mode or for an out-of-range index; sets the
motor state to AT_LIMIT / MOVING as in the source. -/
def update_target (s : ControllerState) (motor_index : ℕ) (direction : String)
    (step_size : ℤ) : ControllerState × Bool :=
  if s.passivity_mode then (s, false)
  else if h : motor_index < 7 then
    let i : Fin 7 := ⟨motor_index, h⟩
    let motor := motors i
    let old_target := s.target_positions i
    let new_target :=
      if direction = "increase" then min (motor.max_val : ℚ) (old_target + step_size)
      else max (motor.min_val : ℚ) (old_target - step_size)
    if new_target = old_target then
      if new_target = (motor.max_val : ℚ) ∨ new_target = (motor.min_val : ℚ) then
        ({ s with motor_states := Function.update s.motor_states i MotorState.AT_LIMIT },
         false)
      else (s, false)
    else
      let s1 := { s with target_positions := Function.update s.target_positions i new_target }
      if new_target = (motor.max_val : ℚ) ∨ new_target = (motor.min_val : ℚ) then
        ({ s1 with motor_states := Function.update s1.motor_states i MotorState.AT_LIMIT },
         true)
      else
        ({ s1 with motor_states := Function.update s1.motor_states i MotorState.MOVING },
         true)
  else (s, false)

/-- `update_positions` (the display smoother): each displayed position
moves toward its target by the fraction `ui_smoothness`, snapping when the
gap is at most 0.5; the motor state is then refreshed from the new gap,
and `current_positions` mirrors the new display vector. -/
def update_positions (s : ControllerState) : ControllerState :=
  let display' : Fin 7 → ℚ := fun i =>
    let diff := s.target_positions i - s.display_positions i
    if (0.5 : ℚ) < pyabs diff then s.display_positions i + diff * ui_smoothness
    else s.target_positions i
  let states' : Fin 7 → MotorState := fun i =>
    if pyabs (display' i - s.target_positions i) < 2 then
      if s.motor_states i = MotorState.MOVING then MotorState.IDLE
      else s.motor_states i
    else
      if s.motor_states i ≠ MotorState.AT_LIMIT then MotorState.MOVING
      else s.motor_states i
  { s with display_positions := display'
           motor_states := states'
           current_positions := display' }

/-- The per-motor synchronization loop of `process_feedback` applied to an
accepted feedback vector (`new_positions` in the source, here the parsed
floats of the first 7 fields): a motor not yet initialized absorbs the
report into target, display and current and is marked initialized; an
initialized motor gets only its target overwritten; every motor state
becomes IDLE.  After the loop all flags are true, so the trailing
`is_passivity_first and all(...)` check always clears the first-sync
flag. -/
def apply_feedback (s : ControllerState) (ps : List ℚ) : ControllerState :=
  let report : Fin 7 → ℚ := fun i => ps.getD i.val 0
  { s with
    target_positions := fun i => report i
    display_positions := fun i =>
      if s.passivity_initialized_motors i then s.display_positions i else report i
    current_positions := fun i =>
      if s.passivity_initialized_motors i then s.current_positions i else report i
    passivity_initialized_motors := fun _ => true
    motor_states := fun _ => MotorState.IDLE
    is_passivity_first := false }

/-- `process_feedback`, one call on one polled queue entry (`data`; `none`
when the queue was empty).  In normal mode with no pending position
request the queue is only drained.  A `Positions:` line parses all fields
as ints (any failure aborts the whole line via the enclosing `except`)
and, when a preset save is waiting, lands in `passivity_presets`.  A
`Feedback:` line is handled only in passivity mode, is rejected when it
has fewer fields than motors, parses the first 7 fields as floats (any
failure rejects the line) and then runs the synchronization loop. -/
def process_feedback (s : ControllerState) (data : Option InMsg) : ControllerState :=
  if !s.passivity_mode && !s.waiting_for_positions then s
  else
    match data with
    | none => s
    | some (InMsg.positionsLine fields) =>
        match fields.mapM Field.asInt with
        | some ps =>
            if s.waiting_for_positions then { s with passivity_presets := ps } else s
        | none => s
    | some (InMsg.feedbackLine fields) =>
        if !s.passivity_mode then s
        else if fields.length < 7 then s
        else
          match (fields.take 7).mapM Field.asFloat with
          | some ps => apply_feedback s ps
          | none => s
    | some InMsg.rawLine => s

/-- The bounded wait loop of `save_custom_preset` in passivity mode: each
iteration processes one polled queue entry, then checks whether
`passivity_presets` became non-empty; the list argument is the sequence
of poll results delivered before the 1-second deadline, and its
exhaustion is the timeout (clear the pending flag, return false). -/
def save_loop (name : String) :
    ControllerState → List (Option InMsg) → ControllerState × Bool
  | s, [] => ({ s with waiting_for_positions := false }, false)
  | s, d :: rest =>
      let s' := process_feedback s d
      if s'.passivity_presets.isEmpty then save_loop name s' rest
      else
        ({ s' with custom_presets := dict_insert s'.custom_presets name s'.passivity_presets
                   passivity_presets := []
                   waiting_for_positions := false }, true)

/-- `save_custom_preset(slot_index)`: out-of-range slots are rejected; in
normal mode the integer-truncated targets are stored under the slot name;
in passivity mode the pending flag is set, the buffer cleared, the
position request `"3,0,0,0,0,0,0,0*"` sent, and the bounded wait loop
run over the polled entries. -/
def save_custom_preset (s : ControllerState) (slot_index : ℕ)
    (incoming : List (Option InMsg)) : ControllerState × Bool :=
  if slot_index < 4 then
    let name := preset_name slot_index
    if !s.passivity_mode then
      let snapshot := (List.finRange 7).map (fun i => pyint (s.target_positions i))
      ({ s with custom_presets := dict_insert s.custom_presets name snapshot }, true)
    else
      save_loop name
        (sendCmd { s with waiting_for_positions := true, passivity_presets := [] }
          "3,0,0,0,0,0,0,0*")
        incoming
  else (s, false)

/-- A polled queue entry that actually delivers a preset-save response: a
`Positions:` line whose fields all parse as ints and is non-empty (the
emptiness check mirrors Python's `if self.passivity_presets:`). -/
def delivers_positions : Option InMsg → Bool
  | some (InMsg.positionsLine fields) =>
      match fields.mapM Field.asInt with
      | some ps => !ps.isEmpty
      | none => false
  | _ => false

/-- Folding a sequence of `update_target` calls
(index, direction, step size), keeping only the states. -/
def run_targets (s : ControllerState) (calls : List (ℕ × String × ℤ)) :
    ControllerState :=
  calls.foldl (fun st c => (update_target st c.1 c.2.1 c.2.2).1) s

/-! Concrete states and inbound lines used by the witness and
counterexample theorems. -/

/-- A serial field holding the integer token `n`. -/
def intField (n : ℤ) : Field := ⟨some n, some (n : ℚ)⟩

/-- A serial field no numeric parse accepts (such as a trailing `"8*"`). -/
def badField : Field := ⟨none, none⟩

/-- The startup state with the built-in fallback presets. -/
def state0 : ControllerState := init_state default_custom_presets

/-- The state right after the first torque toggle: passivity mode, all
synchronization flags cleared. -/
def stateP : ControllerState := (toggle_all_torque state0).1

/-- A well-formed feedback line reporting 512 on every motor. -/
def fbAll512 : List Field := List.replicate 7 (intField 512)

/-- A well-formed feedback line reporting 900 on motor 0 and 512 elsewhere. -/
def fbJump : List Field := intField 900 :: List.replicate 6 (intField 512)

/-- An 8-field feedback line: 7 numeric fields and trailing junk. -/
def fbEight : List Field :=
  (List.range 7).map (fun n => intField (n + 1)) ++ [badField]

/-- A 6-field feedback line (one field short of the 7 motors). -/
def fbShort : List Field := List.replicate 6 (intField 512)

/-- `stateP` after one accepted feedback event: every motor initialized at
512. -/
def statePSynced : ControllerState :=
  process_feedback stateP (some (InMsg.feedbackLine fbAll512))

/-- `statePSynced` after a second feedback event that jumps motor 0's
target to 900. -/
def statePJumped : ControllerState :=
  process_feedback statePSynced (some (InMsg.feedbackLine fbJump))

/-- A concrete sequence of `update_target` calls exercising both
directions, the clamped branch and an out-of-range index. -/
def calls4 : List (ℕ × String × ℤ) :=
  [(0, "increase", 600), (0, "increase", 600), (1, "decrease", 2000),
   (9, "increase", 5), (3, "left", 40)]

/-! Helper lemmas shared by the claim theorems. -/

theorem pyabs_eq_abs (q : ℚ) : pyabs q = |q| := by
  unfold pyabs
  rcases lt_or_ge q 0 with h | h
  · rw [if_pos h, abs_of_neg h]
  · rw [if_neg (not_lt.mpr h), abs_of_nonneg h]

/-- In passivity mode, `process_feedback` on a `Feedback:` line reduces to
the length guard, the float parse of the first 7 fields, and the
synchronization loop. -/
theorem process_feedback_feedbackLine (s : ControllerState) (fields : List Field)
    (hmode : s.passivity_mode = true) :
    process_feedback s (some (InMsg.feedbackLine fields)) =
      if fields.length < 7 then s
      else
        match (fields.take 7).mapM Field.asFloat with
        | some ps => apply_feedback s ps
        | none => s := by
  unfold process_feedback
  rw [hmode]
  simp

/-- `process_feedback` never touches the persisted preset mapping. -/
theorem process_feedback_custom_presets (s : ControllerState) (d : Option InMsg) :
    (process_feedback s d).custom_presets = s.custom_presets := by
  unfold process_feedback apply_feedback
  repeat' split
  all_goals rfl

/-- `process_feedback` never touches the pending-request flag. -/
theorem process_feedback_waiting (s : ControllerState) (d : Option InMsg) :
    (process_feedback s d).waiting_for_positions = s.waiting_for_positions := by
  unfold process_feedback apply_feedback
  repeat' split
  all_goals rfl

/-- If the polled entry is not a delivered positions response, an empty
save buffer stays empty across `process_feedback`. -/
theorem process_feedback_presets_empty (s : ControllerState) (d : Option InMsg)
    (hs : s.passivity_presets = []) (hd : delivers_positions d = false) :
    (process_feedback s d).passivity_presets = [] := by
  unfold process_feedback apply_feedback
  unfold delivers_positions at hd
  repeat' split
  all_goals simp_all

/-! Claim theorems. -/

/-- C1: in passivity mode, a feedback event on a motor whose
synchronization flag is still false copies the reported value into the
motor's current, display and target positions unchanged (no smoothing)
and marks the flag true. -/
theorem c1_first_feedback_sync (s : ControllerState) (fields : List Field)
    (ps : List ℚ) (i : Fin 7)
    (hmode : s.passivity_mode = true)
    (hlen : ¬ fields.length < 7)
    (hparse : (fields.take 7).mapM Field.asFloat = some ps)
    (hinit : s.passivity_initialized_motors i = false) :
    (process_feedback s (some (InMsg.feedbackLine fields))).current_positions i
        = ps.getD i.val 0 ∧
    (process_feedback s (some (InMsg.feedbackLine fields))).display_positions i
        = ps.getD i.val 0 ∧
    (process_feedback s (some (InMsg.feedbackLine fields))).target_positions i
        = ps.getD i.val 0 ∧
    (process_feedback s (some (InMsg.feedbackLine fields))).passivity_initialized_motors i
        = true := by
  rw [process_feedback_feedbackLine s fields hmode, if_neg hlen, hparse]
  simp [apply_feedback, hinit]

/-- Witness for C1 at a concrete passivity-mode state and feedback line. -/
theorem c1_first_feedback_sync_witness :
    (process_feedback stateP (some (InMsg.feedbackLine fbAll512))).target_positions 0
        = (List.replicate 7 (512 : ℚ)).getD 0 0 ∧
    (process_feedback stateP (some (InMsg.feedbackLine fbAll512))).passivity_initialized_motors 0
        = true :=
  ⟨(c1_first_feedback_sync stateP fbAll512 (List.replicate 7 (512 : ℚ)) 0
      (by decide) (by decide) (by decide) (by decide)).2.2.1,
   (c1_first_feedback_sync stateP fbAll512 (List.replicate 7 (512 : ℚ)) 0
      (by decide) (by decide) (by decide) (by decide)).2.2.2⟩

/-- C2: while passivity mode is active, loading the default preset and
loading any custom preset both return false and leave the whole state
(targets included) untouched, sending nothing. -/
theorem c2_load_rejected_in_passivity (s : ControllerState) (slot_index : ℕ)
    (hmode : s.passivity_mode = true) :
    load_default_preset s = (s, false) ∧
    load_custom_preset s slot_index = (s, false) := by
  unfold load_default_preset load_custom_preset
  rw [hmode]
  simp

/-- Witness for C2 at a concrete passivity-mode state. -/
theorem c2_load_rejected_in_passivity_witness :
    load_default_preset stateP = (stateP, false) ∧
    load_custom_preset stateP 0 = (stateP, false) :=
  c2_load_rejected_in_passivity stateP 0 (by decide)

/-- C3: in passivity mode, a feedback event on an already-initialized
motor overwrites only its target position, leaving display and current
untouched; and on every smoother tick a displayed position whose gap to
the target exceeds the 0.5 snap threshold moves by exactly the 0.15
convergence fraction of the gap (never reaching the target), while a gap
within the threshold snaps to the target. -/
theorem c3_subsequent_feedback_smooth (s : ControllerState) (fields : List Field)
    (ps : List ℚ) (i : Fin 7)
    (hmode : s.passivity_mode = true)
    (hlen : ¬ fields.length < 7)
    (hparse : (fields.take 7).mapM Field.asFloat = some ps)
    (hinit : s.passivity_initialized_motors i = true) :
    (process_feedback s (some (InMsg.feedbackLine fields))).target_positions i
        = ps.getD i.val 0 ∧
    (process_feedback s (some (InMsg.feedbackLine fields))).display_positions i
        = s.display_positions i ∧
    (process_feedback s (some (InMsg.feedbackLine fields))).current_positions i
        = s.current_positions i ∧
    (∀ t : ControllerState, ∀ j : Fin 7,
      ((0.5 : ℚ) < |t.target_positions j - t.display_positions j| →
        (update_positions t).display_positions j =
          t.display_positions j +
            (t.target_positions j - t.display_positions j) * (0.15 : ℚ) ∧
        (update_positions t).display_positions j ≠ t.target_positions j) ∧
      (¬ (0.5 : ℚ) < |t.target_positions j - t.display_positions j| →
        (update_positions t).display_positions j = t.target_positions j)) := by
  rw [process_feedback_feedbackLine s fields hmode, if_neg hlen, hparse]
  refine ⟨by simp [apply_feedback], by simp [apply_feedback, hinit],
    by simp [apply_feedback, hinit], ?_⟩
  intro t j
  have hd : (update_positions t).display_positions j =
      if (0.5 : ℚ) < pyabs (t.target_positions j - t.display_positions j) then
        t.display_positions j +
          (t.target_positions j - t.display_positions j) * ui_smoothness
      else t.target_positions j := rfl
  rw [pyabs_eq_abs] at hd
  constructor
  · intro hgap
    rw [hd, if_pos hgap]
    refine ⟨by norm_num [ui_smoothness], ?_⟩
    intro heq
    rcases lt_abs.mp hgap with hpos | hneg
    · rw [ui_smoothness] at heq
      norm_num at heq
      linarith
    · rw [ui_smoothness] at heq
      norm_num at heq
      linarith
  · intro hgap
    rw [hd, if_neg hgap]

/-- Witness for C3 at a concrete synced passivity-mode state. -/
theorem c3_subsequent_feedback_smooth_witness :
    (process_feedback statePSynced (some (InMsg.feedbackLine fbJump))).target_positions 0
        = ((900 : ℚ) :: List.replicate 6 (512 : ℚ)).getD 0 0 ∧
    (process_feedback statePSynced (some (InMsg.feedbackLine fbJump))).display_positions 0
        = statePSynced.display_positions 0 :=
  ⟨(c3_subsequent_feedback_smooth statePSynced fbJump
      ((900 : ℚ) :: List.replicate 6 (512 : ℚ)) 0
      (by decide) (by decide) (by decide) (by decide)).1,
   (c3_subsequent_feedback_smooth statePSynced fbJump
      ((900 : ℚ) :: List.replicate 6 (512 : ℚ)) 0
      (by decide) (by decide) (by decide) (by decide)).2.1⟩

/-- Clamping upward with `min` stays inside `[lo, hi]`. -/
theorem min_clamp_mem (lo hi t d : ℚ) (hd : 0 ≤ d) (h1 : lo ≤ t) (h2 : t ≤ hi) :
    lo ≤ min hi (t + d) ∧ min hi (t + d) ≤ hi :=
  ⟨le_min (h1.trans h2) (h1.trans (le_add_of_nonneg_right hd)), min_le_left _ _⟩

/-- Clamping downward with `max` stays inside `[lo, hi]`. -/
theorem max_clamp_mem (lo hi t d : ℚ) (hd : 0 ≤ d) (h1 : lo ≤ t) (h2 : t ≤ hi) :
    lo ≤ max lo (t - d) ∧ max lo (t - d) ≤ hi :=
  ⟨le_max_left _ _, max_le (h1.trans h2) ((sub_le_self _ hd).trans h2)⟩

set_option maxHeartbeats 1600000 in
/-- One `update_target` call with a non-negative step keeps any joint's
target inside its configured range. -/
theorem update_target_preserves_range (s : ControllerState) (idx : ℕ)
    (dir : String) (step : ℤ) (hstep : 0 ≤ step) (i : Fin 7)
    (h : ((motors i).min_val : ℚ) ≤ s.target_positions i ∧
         s.target_positions i ≤ ((motors i).max_val : ℚ)) :
    ((motors i).min_val : ℚ) ≤ (update_target s idx dir step).1.target_positions i ∧
    (update_target s idx dir step).1.target_positions i ≤ ((motors i).max_val : ℚ) := by
  have hstepQ : (0 : ℚ) ≤ ((step : ℤ) : ℚ) := by exact_mod_cast hstep
  unfold update_target
  split
  · exact h
  split
  · next hidx =>
    dsimp only
    split
    · split
      · split
        · exact h
        · exact h
      · split
        · dsimp only
          rw [Function.update_apply]
          by_cases hii : i = (⟨idx, hidx⟩ : Fin 7)
          · rw [if_pos hii]
            rw [hii] at h ⊢
            exact min_clamp_mem _ _ _ _ hstepQ h.1 h.2
          · rw [if_neg hii]; exact h
        · dsimp only
          rw [Function.update_apply]
          by_cases hii : i = (⟨idx, hidx⟩ : Fin 7)
          · rw [if_pos hii]
            rw [hii] at h ⊢
            exact min_clamp_mem _ _ _ _ hstepQ h.1 h.2
          · rw [if_neg hii]; exact h
    · split
      · split
        · exact h
        · exact h
      · split
        · dsimp only
          rw [Function.update_apply]
          by_cases hii : i = (⟨idx, hidx⟩ : Fin 7)
          · rw [if_pos hii]
            rw [hii] at h ⊢
            exact max_clamp_mem _ _ _ _ hstepQ h.1 h.2
          · rw [if_neg hii]; exact h
        · dsimp only
          rw [Function.update_apply]
          by_cases hii : i = (⟨idx, hidx⟩ : Fin 7)
          · rw [if_pos hii]
            rw [hii] at h ⊢
            exact max_clamp_mem _ _ _ _ hstepQ h.1 h.2
          · rw [if_neg hii]; exact h
  · exact h

/-- C4: starting from the constructor state, any sequence of
`update_target` calls with arbitrary directions and non-negative step
sizes keeps every joint's target inside its configured `[min, max]`
range, for each joint whose configuration satisfies
`min ≤ default ≤ max`. -/
theorem c4_targets_clamped (presets : List (String × List ℤ)) (i : Fin 7)
    (hconf : (motors i).min_val ≤ (motors i).default_pos ∧
             (motors i).default_pos ≤ (motors i).max_val)
    (calls : List (ℕ × String × ℤ))
    (hsteps : ∀ c ∈ calls, 0 ≤ c.2.2) :
    ((motors i).min_val : ℚ) ≤
        (run_targets (init_state presets) calls).target_positions i ∧
    (run_targets (init_state presets) calls).target_positions i ≤
        ((motors i).max_val : ℚ) := by
  have base : ((motors i).min_val : ℚ) ≤ (init_state presets).target_positions i ∧
      (init_state presets).target_positions i ≤ ((motors i).max_val : ℚ) := by
    constructor
    · show ((motors i).min_val : ℚ) ≤ ((motors i).default_pos : ℚ)
      exact_mod_cast hconf.1
    · show ((motors i).default_pos : ℚ) ≤ ((motors i).max_val : ℚ)
      exact_mod_cast hconf.2
  have main : ∀ cs : List (ℕ × String × ℤ), (∀ c ∈ cs, 0 ≤ c.2.2) →
      ∀ s : ControllerState,
        (((motors i).min_val : ℚ) ≤ s.target_positions i ∧
          s.target_positions i ≤ ((motors i).max_val : ℚ)) →
        (((motors i).min_val : ℚ) ≤ (run_targets s cs).target_positions i ∧
          (run_targets s cs).target_positions i ≤ ((motors i).max_val : ℚ)) := by
    intro cs
    induction cs with
    | nil => intro _ s hs; exact hs
    | cons c rest ih =>
      intro hcs s hs
      have hone := update_target_preserves_range s c.1 c.2.1 c.2.2
        (hcs c (by simp)) i hs
      have hrest := ih (fun x hx => hcs x (List.mem_cons_of_mem c hx)) _ hone
      simpa [run_targets, List.foldl_cons] using hrest
  exact main calls hsteps _ base

/-- Witness for C4 on a concrete call sequence with both directions, a
clamped move and an out-of-range index. -/
theorem c4_targets_clamped_witness :
    ((motors 0).min_val : ℚ) ≤
        (run_targets (init_state default_custom_presets) calls4).target_positions 0 ∧
    (run_targets (init_state default_custom_presets) calls4).target_positions 0 ≤
        ((motors 0).max_val : ℚ) :=
  c4_targets_clamped default_custom_presets 0 (by decide) calls4 (by decide)

/-- The bounded wait loop, when no polled entry delivers a positions
response, times out: it reports failure, clears the pending flag and
leaves the preset mapping as it found it. -/
theorem save_loop_timeout (name : String) (incoming : List (Option InMsg)) :
    ∀ s : ControllerState, s.passivity_presets = [] →
      (∀ d ∈ incoming, delivers_positions d = false) →
      (save_loop name s incoming).2 = false ∧
      (save_loop name s incoming).1.waiting_for_positions = false ∧
      (save_loop name s incoming).1.custom_presets = s.custom_presets := by
  induction incoming with
  | nil => intro s _ _; exact ⟨rfl, rfl, rfl⟩
  | cons d rest ih =>
    intro s hs hd
    have hempty : (process_feedback s d).passivity_presets = [] :=
      process_feedback_presets_empty s d hs (hd d (List.mem_cons_self d rest))
    have hstep : save_loop name s (d :: rest) =
        save_loop name (process_feedback s d) rest := by
      conv_lhs => unfold save_loop
      rw [if_pos (by rw [hempty]; rfl)]
    have hrest := ih (process_feedback s d) hempty
      (fun x hx => hd x (List.mem_cons_of_mem d hx))
    rw [hstep]
    exact ⟨hrest.1, hrest.2.1,
      hrest.2.2.trans (process_feedback_custom_presets s d)⟩

/-- C5: a passivity-mode preset save that never receives a positions
response within the timeout window returns false, clears the
pending-request flag and leaves the persisted preset mapping unchanged. -/
theorem c5_save_timeout (s : ControllerState) (slot_index : ℕ)
    (incoming : List (Option InMsg))
    (hmode : s.passivity_mode = true) (hslot : slot_index < 4)
    (hnopos : ∀ d ∈ incoming, delivers_positions d = false) :
    (save_custom_preset s slot_index incoming).2 = false ∧
    (save_custom_preset s slot_index incoming).1.waiting_for_positions = false ∧
    (save_custom_preset s slot_index incoming).1.custom_presets = s.custom_presets := by
  unfold save_custom_preset
  rw [if_pos hslot, hmode]
  simp only [Bool.not_true, Bool.false_eq_true, if_false]
  exact save_loop_timeout _ incoming _ rfl hnopos

/-- Witness for C5: a passivity-mode save over a window containing an
empty poll, a raw line, a feedback line and a malformed positions line. -/
theorem c5_save_timeout_witness :
    (save_custom_preset stateP 2
        [none, some InMsg.rawLine, some (InMsg.feedbackLine fbAll512),
         some (InMsg.positionsLine [badField])]).2 = false ∧
    (save_custom_preset stateP 2
        [none, some InMsg.rawLine, some (InMsg.feedbackLine fbAll512),
         some (InMsg.positionsLine [badField])]).1.waiting_for_positions = false ∧
    (save_custom_preset stateP 2
        [none, some InMsg.rawLine, some (InMsg.feedbackLine fbAll512),
         some (InMsg.positionsLine [badField])]).1.custom_presets = stateP.custom_presets :=
  c5_save_timeout stateP 2
    [none, some InMsg.rawLine, some (InMsg.feedbackLine fbAll512),
     some (InMsg.positionsLine [badField])]
    (by decide) (by decide) (by decide)

/-- C6 counterexample: an 8-field `Feedback:` line — a field count that
differs from the 7 joints — is **not** rejected: it is accepted and
overwrites joint state (target 0 moves off its old value). -/
theorem c6_extra_fields_accepted :
    fbEight.length ≠ 7 ∧
    (process_feedback stateP (some (InMsg.feedbackLine fbEight))).target_positions 0 ≠
      stateP.target_positions 0 :=
  ⟨by decide, by decide⟩

/-- C6 (amended): a `Feedback:` line with fewer fields than the joint
count is rejected and alters nothing; a line with at least the joint
count of fields is processed exactly as its first 7 fields (extra fields
are ignored, not rejected). -/
theorem c6_feedback_field_count (s : ControllerState) (fields : List Field)
    (hmode : s.passivity_mode = true) :
    (fields.length < 7 → process_feedback s (some (InMsg.feedbackLine fields)) = s) ∧
    process_feedback s (some (InMsg.feedbackLine fields)) =
      process_feedback s (some (InMsg.feedbackLine (fields.take 7))) := by
  constructor
  · intro hlen
    rw [process_feedback_feedbackLine s fields hmode, if_pos hlen]
  · by_cases hlen : fields.length < 7
    · rw [process_feedback_feedbackLine s fields hmode, if_pos hlen,
          process_feedback_feedbackLine s (fields.take 7) hmode,
          if_pos (by rw [List.length_take]; omega)]
    · rw [process_feedback_feedbackLine s fields hmode, if_neg hlen,
          process_feedback_feedbackLine s (fields.take 7) hmode,
          if_neg (by rw [List.length_take]; omega), List.take_take, min_self]

/-- Witness for C6 (amended): a 6-field line at a concrete passivity
state is dropped without any state change. -/
theorem c6_feedback_field_count_witness :
    process_feedback stateP (some (InMsg.feedbackLine fbShort)) = stateP :=
  (c6_feedback_field_count stateP fbShort (by decide)).1 (by decide)

/-- C7: from a normal-mode, torque-on state, the first toggle enters
passivity (clearing every synchronization flag and sending torque-off
`"1,0,0,0,0,0,0,0*"` then feedback-on `"2,1,0,0,0,0,0,0*"`), the second
toggle returns to normal (sending torque-on `"1,1,1,1,1,1,1,1*"` then
feedback-off `"2,0,0,0,0,0,0,0*"`), after which loading the default
preset succeeds again and rewrites every target. -/
theorem c7_toggle_twice_restores (s : ControllerState)
    (hm : s.passivity_mode = false) (ht : s.all_torque_enabled = true) :
    (toggle_all_torque s).1.passivity_mode = true ∧
    (∀ i, (toggle_all_torque s).1.passivity_initialized_motors i = false) ∧
    (toggle_all_torque s).1.sent =
      s.sent ++ ["1,0,0,0,0,0,0,0*", "2,1,0,0,0,0,0,0*"] ∧
    (toggle_all_torque (toggle_all_torque s).1).1.passivity_mode = false ∧
    (toggle_all_torque (toggle_all_torque s).1).1.sent =
      (toggle_all_torque s).1.sent ++ ["1,1,1,1,1,1,1,1*", "2,0,0,0,0,0,0,0*"] ∧
    (load_default_preset (toggle_all_torque (toggle_all_torque s).1).1).2 = true ∧
    (∀ i, (load_default_preset
        (toggle_all_torque (toggle_all_torque s).1).1).1.target_positions i =
      ((motors i).default_pos : ℚ)) := by
  obtain ⟨cp, tp, dp, ms, atq, te, ipf, pim, pm, cps, wfp, pp, snt⟩ := s
  dsimp only at hm ht
  subst hm
  subst ht
  refine ⟨rfl, fun i => rfl, ?_, rfl, ?_, rfl, fun i => rfl⟩
  · show (snt ++ [_]) ++ [_] = snt ++ _
    rw [List.append_assoc]
    refine congrArg (fun l => snt ++ l) ?_
    dsimp only [toggle_all_torque, send_torque_command, sendCmd]
    decide
  · show ((_ ++ [_]) ++ [_]) = _ ++ _
    rw [List.append_assoc]
    refine congrArg (fun l => _ ++ l) ?_
    simp only [toggle_all_torque, send_torque_command, sendCmd, Bool.not_true,
      Bool.not_false, if_true]
    decide

/-- Witness for C7 at the constructor state. -/
theorem c7_toggle_twice_restores_witness :
    (toggle_all_torque state0).1.passivity_mode = true ∧
    (load_default_preset
        (toggle_all_torque (toggle_all_torque state0).1).1).2 = true :=
  ⟨(c7_toggle_twice_restores state0 (by decide) (by decide)).1,
   (c7_toggle_twice_restores state0 (by decide) (by decide)).2.2.2.2.2.1⟩

/-- C8 counterexample: in passivity mode, right after a feedback event
every motor state is IDLE, yet the display-smoother tick that follows in
the same main-loop iteration sets motor 0 to MOVING (its display is
still 329.8 away from the jumped target). -/
theorem c8_moving_after_tick :
    statePJumped.passivity_mode = true ∧
    (∀ i, statePJumped.motor_states i = MotorState.IDLE) ∧
    (update_positions statePJumped).motor_states 0 = MotorState.MOVING := by
  refine ⟨by decide, by decide, ?_⟩
  have h1 : statePJumped.target_positions 0 = 900 := by decide
  have h2 : statePJumped.display_positions 0 = 512 := by decide
  have h3 : statePJumped.motor_states 0 = MotorState.IDLE := by decide
  have key : (update_positions statePJumped).motor_states 0 =
      if pyabs ((if (0.5 : ℚ) < pyabs (statePJumped.target_positions 0 -
              statePJumped.display_positions 0) then
            statePJumped.display_positions 0 +
              (statePJumped.target_positions 0 - statePJumped.display_positions 0) *
                ui_smoothness
          else statePJumped.target_positions 0) -
          statePJumped.target_positions 0) < 2 then
        (if statePJumped.motor_states 0 = MotorState.MOVING then MotorState.IDLE
         else statePJumped.motor_states 0)
      else
        (if statePJumped.motor_states 0 ≠ MotorState.AT_LIMIT then MotorState.MOVING
         else statePJumped.motor_states 0) := rfl
  rw [h1, h2, h3] at key
  rw [key]
  norm_num [pyabs, ui_smoothness]
  decide

/-- C8 (amended): after any accepted feedback event in passivity mode
every motor state is IDLE; the smoother tick that follows keeps a motor
IDLE exactly when its refreshed display sits within 2 of the target, and
otherwise marks it MOVING. -/
theorem c8_feedback_idle_then_tick (s : ControllerState) (fields : List Field)
    (ps : List ℚ)
    (hmode : s.passivity_mode = true)
    (hlen : ¬ fields.length < 7)
    (hparse : (fields.take 7).mapM Field.asFloat = some ps) :
    (∀ i, (process_feedback s (some (InMsg.feedbackLine fields))).motor_states i =
      MotorState.IDLE) ∧
    (∀ t : ControllerState, ∀ j : Fin 7, t.motor_states j = MotorState.IDLE →
      (update_positions t).motor_states j =
        if |(update_positions t).display_positions j - t.target_positions j| < 2
        then MotorState.IDLE else MotorState.MOVING) := by
  constructor
  · intro i
    rw [process_feedback_feedbackLine s fields hmode, if_neg hlen, hparse]
    rfl
  · intro t j hj
    have key : (update_positions t).motor_states j =
        if pyabs ((update_positions t).display_positions j - t.target_positions j) < 2 then
          (if t.motor_states j = MotorState.MOVING then MotorState.IDLE
           else t.motor_states j)
        else
          (if t.motor_states j ≠ MotorState.AT_LIMIT then MotorState.MOVING
           else t.motor_states j) := rfl
    rw [hj] at key
    rw [key, pyabs_eq_abs]
    by_cases hc : |(update_positions t).display_positions j - t.target_positions j| < (2 : ℚ)
    · rw [if_pos hc, if_pos hc]
      decide
    · rw [if_neg hc, if_neg hc]
      decide

/-- Witness for C8 (amended) at a concrete state and feedback line. -/
theorem c8_feedback_idle_then_tick_witness :
    (process_feedback stateP (some (InMsg.feedbackLine fbAll512))).motor_states 0 =
      MotorState.IDLE :=
  (c8_feedback_idle_then_tick stateP fbAll512 (List.replicate 7 (512 : ℚ))
    (by decide) (by decide) (by decide)).1 0

/-- C9 counterexample: a present-but-malformed preset file does **not**
fall back to the built-in defaults — the parse exception escapes
`_load_custom_presets` (only `FileNotFoundError` is caught). -/
theorem c9_malformed_raises :
    load_custom_presets FileReadResult.malformed = Except.error () ∧
    load_custom_presets FileReadResult.malformed ≠ Except.ok default_custom_presets :=
  ⟨rfl, fun h => Except.noConfusion h⟩

/-- C9 (amended): a missing preset file falls back to the fixed built-in
default set; a parsed mapping with more than 4 entries is capped to its
first 4; a malformed file raises instead of falling back. -/
theorem c9_load_presets_fallback (m : List (String × List ℤ)) (hm : 4 < m.length) :
    load_custom_presets FileReadResult.missing = Except.ok default_custom_presets ∧
    load_custom_presets (FileReadResult.contents m) = Except.ok (m.take 4) ∧
    load_custom_presets FileReadResult.malformed = Except.error () := by
  refine ⟨rfl, ?_, rfl⟩
  show Except.ok (if 4 < m.length then m.take 4 else m) = Except.ok (m.take 4)
  rw [if_pos hm]

/-- A 5-entry preset mapping used to witness the 4-entry cap. -/
def bigPresetMap : List (String × List ℤ) :=
  [("A", [1]), ("B", [2]), ("C", [3]), ("D", [4]), ("E", [5])]

/-- Witness for C9 (amended) on a 5-entry mapping. -/
theorem c9_load_presets_fallback_witness :
    load_custom_presets (FileReadResult.contents bigPresetMap) =
      Except.ok (bigPresetMap.take 4) :=
  (c9_load_presets_fallback bigPresetMap (by decide)).2.1

/-- C10: passivity mode holds exactly when the global torque flag is off —
true in the constructor state and preserved by every `toggle_all_torque`
call, which also makes every per-motor torque flag equal the global
one. -/
theorem c10_mode_torque_equiv (presets : List (String × List ℤ))
    (s : ControllerState)
    (hinv : s.passivity_mode = !s.all_torque_enabled) :
    (init_state presets).passivity_mode = !(init_state presets).all_torque_enabled ∧
    (toggle_all_torque s).1.passivity_mode =
      !(toggle_all_torque s).1.all_torque_enabled ∧
    ∀ i, (toggle_all_torque s).1.torque_enabled i =
      (toggle_all_torque s).1.all_torque_enabled := by
  obtain ⟨cp, tp, dp, ms, atq, te, ipf, pim, pm, cps, wfp, pp, snt⟩ := s
  refine ⟨rfl, ?_, ?_⟩
  · cases atq <;> rfl
  · cases atq <;> exact fun i => rfl

/-- Witness for C10 at the constructor state. -/
theorem c10_mode_torque_equiv_witness :
    (toggle_all_torque state0).1.passivity_mode =
      !(toggle_all_torque state0).1.all_torque_enabled :=
  (c10_mode_torque_equiv default_custom_presets state0 (by decide)).2.1

end Manipulator
